/-
  Verification of the Xterminal PTY session core (src-tauri/src/pty/session.rs).

  The Rust core manages PTY sessions: `PtyManager::spawn` creates a PTY pair,
  starts a shell on the slave side, obtains a writer from the master, starts a
  background reader task and installs the session in a registry keyed by a
  fresh UUID; `write`, `resize` and `close` address sessions by id; the reader
  loop pumps bytes from the master and emits data / exit notifications.

  Shallow embedding: OS calls (openpty, spawn_command, take_writer,
  try_clone_reader, write_all, flush, resize) are nondeterministic effects,
  passed in as explicit outcome records; OS handles are opaque Nat tokens.
  The session registry (a Rust HashMap behind a mutex) is an association list
  with unique keys, threaded explicitly through every operation.  An
  operation's result is an `Outcome`: `ok`, `err` (a Rust `Err(String)`), or
  `panicked` (a Rust panic, which the source can reach via `.unwrap()`).
-/
import Mathlib

namespace Xterminal

/-- Outcome of a Rust call: `Ok`, `Err(String)`, or a panic (from `.unwrap()`). -/
inductive Outcome (α : Type) where
  | ok (a : α)
  | err (msg : String)
  | panicked (msg : String)
deriving DecidableEq

/-- True exactly on the `panicked` outcome. -/
def Outcome.isPanic {α : Type} : Outcome α → Bool
  | .panicked _ => true
  | _ => false

/-- `SessionInfo` returned to the frontend: id, pid, resolved shell path. -/
structure SessionInfo where
  id : String
  pid : Nat
  shell : String
deriving DecidableEq

/-- `SpawnOptions`: optional shell, cols, rows, optional extra environment. -/
structure SpawnOptions where
  shell : Option String
  cols : Nat
  rows : Nat
  env : Option (List (String × String))
deriving DecidableEq

/-- `PtySize { rows, cols, pixel_width, pixel_height }`. -/
structure PtySize where
  rows : Nat
  cols : Nat
  pixelWidth : Nat
  pixelHeight : Nat
deriving DecidableEq

/-- A master/slave handle pair returned by `openpty` (handles as tokens). -/
structure PtyPair where
  master : Nat
  slave : Nat
deriving DecidableEq

/-- A spawned child process: a handle token and `process_id()` result. -/
structure ChildProc where
  token : Nat
  processId : Option Nat
deriving DecidableEq

/-- `portable_pty::CommandBuilder`: program plus environment assignments in
the order `env` was called; a later assignment to the same name overwrites an
earlier one, so the effective value of a variable is the last assignment. -/
structure CommandBuilder where
  prog : String
  envs : List (String × String)
deriving DecidableEq

/-- `CommandBuilder::new(prog)`: no explicit environment assignments yet. -/
def CommandBuilder.new (prog : String) : CommandBuilder :=
  ⟨prog, []⟩

/-- `cmd.env(k, v)`: record the assignment, after all earlier ones. -/
def CommandBuilder.env (c : CommandBuilder) (k v : String) : CommandBuilder :=
  ⟨c.prog, c.envs ++ [(k, v)]⟩

/-- Effective value of variable `k` in the built command's environment:
the last assignment wins. -/
def cmdGetEnv (c : CommandBuilder) (k : String) : Option String :=
  go c.envs.reverse
where
  go : List (String × String) → Option String
    | [] => none
    | (k2, v) :: rest => if k2 = k then some v else go rest

/-- `PtySession` as stored in the registry: id plus the owned handles
(child, master, writer, reader-task handle), all as tokens. -/
structure PtySession where
  id : String
  child : Nat
  master : Nat
  writer : Nat
  readerHandle : Nat
deriving DecidableEq

/-- The session registry: `HashMap<String, PtySession>` as an association
list with unique keys. -/
abbrev Registry := List (String × PtySession)

/-- `sessions.get(sid)`. -/
def regLookup : Registry → String → Option PtySession
  | [], _ => none
  | (k, v) :: rest, sid => if k = sid then some v else regLookup rest sid

/-- `sessions.remove(sid)`, the resulting map (the key is gone). -/
def regRemove : Registry → String → Registry
  | [], _ => []
  | (k, v) :: rest, sid =>
      if k = sid then regRemove rest sid else (k, v) :: regRemove rest sid

/-- `sessions.insert(sid, s)`: the key now maps to `s` and nothing else. -/
def regInsert (reg : Registry) (sid : String) (s : PtySession) : Registry :=
  (sid, s) :: regRemove reg sid

/-- Shell resolution in `spawn`:
`options.shell.unwrap_or_else(|| env::var("SHELL").unwrap_or_else(|_| "/bin/bash"))`. -/
def resolveShell (explicitShell : Option String) (shellEnv : Option String) : String :=
  explicitShell.getD (shellEnv.getD "/bin/bash")

/-- Command construction in `spawn`: `CommandBuilder::new(&shell)`, then
`cmd.env(k, v)` for each caller-supplied pair, then
`cmd.env("TERM", "xterm-256color")` and `cmd.env("COLORTERM", "truecolor")`. -/
def buildCmd (shell : String) (envOpt : Option (List (String × String))) : CommandBuilder :=
  let cmd := CommandBuilder.new shell
  let cmd :=
    match envOpt with
    | some env => env.foldl (fun (c : CommandBuilder) (kv : String × String) => c.env kv.1 kv.2) cmd
    | none => cmd
  (cmd.env "TERM" "xterm-256color").env "COLORTERM" "truecolor"

/-- Outcomes of the OS calls made by one `spawn` invocation, plus the fresh
UUID and the `SHELL` environment variable. -/
structure SpawnEffects where
  freshId : String
  shellEnv : Option String
  openpty : PtySize → Except String PtyPair
  spawnCommand : CommandBuilder → Except String ChildProc
  takeWriter : Except String Nat
  tryCloneReader : Except String Nat
  readerTask : Nat

/-- `PtyManager::spawn`.  Generates an id, resolves the shell, opens the PTY
with size `(rows, cols, 0, 0)`, builds the command, spawns the child, reads
the pid (`unwrap_or(0)`), takes the writer, clones a reader for the reader
task (this result is `.unwrap()`ed: failure is a panic, not an `Err`),
installs the session, and returns `SessionInfo`.  Each fallible stage before
the reader clone is mapped to a descriptive error string with `map_err`. -/
def spawn (eff : SpawnEffects) (options : SpawnOptions) (sessions : Registry) :
    Outcome SessionInfo × Registry :=
  let id := eff.freshId
  let shell := resolveShell options.shell eff.shellEnv
  let ptySize : PtySize := ⟨options.rows, options.cols, 0, 0⟩
  match eff.openpty ptySize with
  | .error e => (.err ("Failed to open PTY: " ++ e), sessions)
  | .ok ptyPair =>
    let cmd := buildCmd shell options.env
    match eff.spawnCommand cmd with
    | .error e => (.err ("Failed to spawn shell: " ++ e), sessions)
    | .ok child =>
      let pid := child.processId.getD 0
      match eff.takeWriter with
      | .error e => (.err ("Failed to get writer: " ++ e), sessions)
      | .ok writer =>
        match eff.tryCloneReader with
        | .error e => (.panicked e, sessions)
        | .ok _reader =>
          let session : PtySession := ⟨id, child.token, ptyPair.master, writer, eff.readerTask⟩
          (.ok ⟨id, pid, shell⟩, regInsert sessions id session)

/-- An operation performed on a session's writer. -/
inductive WriterOp where
  | writeAll (data : String)
  | flush
deriving DecidableEq

/-- Outcomes of the calls made by one `write` invocation: locking the
writer mutex, `write_all`, `flush`. -/
structure WriteEffects where
  lockWriter : Except String Unit
  writeAll : Except String Unit
  flush : Except String Unit

/-- `PtyManager::write`: look the session up (`Err("Session not found: ..")`
if absent), lock the writer, `write_all(data.as_bytes())`, `flush`; each
failure is mapped to a descriptive error.  Returns the outcome, the registry
(never mutated by `write`), and the writer operations that completed. -/
def write (eff : WriteEffects) (sessions : Registry) (sessionId : String) (data : String) :
    Outcome Unit × Registry × List WriterOp :=
  match regLookup sessions sessionId with
  | none => (.err ("Session not found: " ++ sessionId), sessions, [])
  | some _session =>
    match eff.lockWriter with
    | .error e => (.err ("Failed to lock writer: " ++ e), sessions, [])
    | .ok _ =>
      match eff.writeAll with
      | .error e => (.err ("Failed to write to PTY: " ++ e), sessions, [])
      | .ok _ =>
        match eff.flush with
        | .error e => (.err ("Failed to flush PTY: " ++ e), sessions, [.writeAll data])
        | .ok _ => (.ok (), sessions, [.writeAll data, .flush])

/-- Outcome of the `master.resize(size)` call made by one `resize` invocation. -/
structure ResizeEffects where
  resizeOp : PtySize → Except String Unit

/-- `PtyManager::resize`: look the session up (`Err("Session not found: ..")`
if absent), call `master.resize` with `(rows, cols, 0, 0)`, mapping failure
to a descriptive error.  The registry is never mutated by `resize`. -/
def resize (eff : ResizeEffects) (sessions : Registry) (sessionId : String)
    (cols rows : Nat) : Outcome Unit × Registry :=
  match regLookup sessions sessionId with
  | none => (.err ("Session not found: " ++ sessionId), sessions)
  | some _session =>
    match eff.resizeOp ⟨rows, cols, 0, 0⟩ with
    | .error e => (.err ("Failed to resize PTY: " ++ e), sessions)
    | .ok _ => (.ok (), sessions)

/-- `PtyManager::close`: `sessions.remove(session_id)` — fails with
`Err("Session not found: ..")` if absent; otherwise the entry is removed,
the reader task handle is aborted (returned here as the list of aborted
task tokens), and the handles are dropped. -/
def close (sessions : Registry) (sessionId : String) :
    Outcome Unit × Registry × List Nat :=
  match regLookup sessions sessionId with
  | none => (.err ("Session not found: " ++ sessionId), sessions, [])
  | some session => (.ok (), regRemove sessions sessionId, [session.readerHandle])

/-- Is `b` a UTF-8 continuation byte (`0x80..=0xBF`)? -/
def isCont (b : Nat) : Bool :=
  0x80 ≤ b && b ≤ 0xBF

/-- Allowed first continuation byte after a 3-byte lead `b`
(`0xE0` needs `0xA0..=0xBF`, `0xED` needs `0x80..=0x9F`, else any continuation). -/
def valid3First (b c1 : Nat) : Bool :=
  if b = 0xE0 then 0xA0 ≤ c1 && c1 ≤ 0xBF
  else if b = 0xED then 0x80 ≤ c1 && c1 ≤ 0x9F
  else isCont c1

/-- Allowed first continuation byte after a 4-byte lead `b`
(`0xF0` needs `0x90..=0xBF`, `0xF4` needs `0x80..=0x8F`, else any continuation). -/
def valid4First (b c1 : Nat) : Bool :=
  if b = 0xF0 then 0x90 ≤ c1 && c1 ≤ 0xBF
  else if b = 0xF4 then 0x80 ≤ c1 && c1 ≤ 0x8F
  else isCont c1

/-- Code point of a valid 2-byte sequence. -/
def cp2 (b c1 : Nat) : Nat := (b - 0xC0) * 0x40 + (c1 - 0x80)

/-- Code point of a valid 3-byte sequence. -/
def cp3 (b c1 c2 : Nat) : Nat := (b - 0xE0) * 0x1000 + (c1 - 0x80) * 0x40 + (c2 - 0x80)

/-- Code point of a valid 4-byte sequence. -/
def cp4 (b c1 c2 c3 : Nat) : Nat :=
  (b - 0xF0) * 0x40000 + (c1 - 0x80) * 0x1000 + (c2 - 0x80) * 0x40 + (c3 - 0x80)

/-- `String::from_utf8_lossy` on a byte slice, as a total function from bytes
to code points: valid UTF-8 sequences decode normally; each maximal invalid
prefix of a sequence is replaced by one U+FFFD and decoding resumes at the
first offending byte; a truncated sequence at the end also becomes U+FFFD.
Decoding never fails. -/
def utf8Lossy : List Nat → List Nat
  | [] => []
  | b :: rest =>
    if b ≤ 0x7F then b :: utf8Lossy rest
    else if 0xC2 ≤ b && b ≤ 0xDF then
      match rest with
      | [] => [0xFFFD]
      | c1 :: rest1 =>
        if isCont c1 then cp2 b c1 :: utf8Lossy rest1
        else 0xFFFD :: utf8Lossy (c1 :: rest1)
    else if 0xE0 ≤ b && b ≤ 0xEF then
      match rest with
      | [] => [0xFFFD]
      | c1 :: rest1 =>
        if valid3First b c1 then
          match rest1 with
          | [] => [0xFFFD]
          | c2 :: rest2 =>
            if isCont c2 then cp3 b c1 c2 :: utf8Lossy rest2
            else 0xFFFD :: utf8Lossy (c2 :: rest2)
        else 0xFFFD :: utf8Lossy (c1 :: rest1)
    else if 0xF0 ≤ b && b ≤ 0xF4 then
      match rest with
      | [] => [0xFFFD]
      | c1 :: rest1 =>
        if valid4First b c1 then
          match rest1 with
          | [] => [0xFFFD]
          | c2 :: rest2 =>
            if isCont c2 then
              match rest2 with
              | [] => [0xFFFD]
              | c3 :: rest3 =>
                if isCont c3 then cp4 b c1 c2 c3 :: utf8Lossy rest3
                else 0xFFFD :: utf8Lossy (c3 :: rest3)
            else 0xFFFD :: utf8Lossy (c2 :: rest2)
        else 0xFFFD :: utf8Lossy (c1 :: rest1)
    else 0xFFFD :: utf8Lossy rest

/-- Result of one `reader.read(&mut buffer)` call: `Ok` with the bytes read
(`Ok(0)` is the empty list) or `Err`. -/
inductive ReadResult where
  | ok (bytes : List Nat)
  | err (msg : String)
deriving DecidableEq

/-- A notification emitted to the app: a data chunk on the session's data
topic, or an exit code on its exit topic. -/
inductive PtyEvent where
  | data (topic : String) (text : List Nat)
  | exit (topic : String) (exitCode : Nat)
deriving DecidableEq

/-- Is this a data notification? -/
def isDataEv : PtyEvent → Bool
  | .data _ _ => true
  | _ => false

/-- Is this an exit notification? -/
def isExitEv : PtyEvent → Bool
  | .exit _ _ => true
  | _ => false

/-- One iteration of the loop in `PtyManager::start_reader`: on `Ok(0)` emit
`{ exitCode: 0 }` on `pty://{id}/exit` and stop; on `Ok(n)` emit the lossily
decoded bytes on `pty://{id}/data` and continue; on `Err` emit
`{ exitCode: 1 }` on `pty://{id}/exit` and stop.  Returns the emitted events
and whether the loop continues. -/
def readerStep (sessionId : String) (r : ReadResult) : List PtyEvent × Bool :=
  match r with
  | .ok [] => ([.exit ("pty://" ++ sessionId ++ "/exit") 0], false)
  | .ok bs => ([.data ("pty://" ++ sessionId ++ "/data") (utf8Lossy bs)], true)
  | .err _ => ([.exit ("pty://" ++ sessionId ++ "/exit") 1], false)

/-- The reader loop over a (finite prefix of a) sequence of read results:
process reads in order, stopping at the first terminating step. -/
def readerLoop (sessionId : String) : List ReadResult → List PtyEvent
  | [] => []
  | r :: rs =>
    match readerStep sessionId r with
    | (evs, true) => evs ++ readerLoop sessionId rs
    | (evs, false) => evs

/-! ## Registry lemmas -/

/-- After removal a key is absent. -/
theorem regLookup_remove_self (reg : Registry) (sid : String) :
    regLookup (regRemove reg sid) sid = none := by
  induction reg with
  | nil => rfl
  | cons p rest ih =>
    obtain ⟨k, v⟩ := p
    by_cases h : k = sid
    · simp [regRemove, h, ih]
    · simp [regRemove, regLookup, h, ih]

/-- Lookup of a freshly inserted key yields the inserted session. -/
theorem regLookup_insert_self (reg : Registry) (sid : String) (s : PtySession) :
    regLookup (regInsert reg sid s) sid = some s := by
  simp [regInsert, regLookup]

/-! ## Concrete fixtures used by the witnesses -/

/-- A sample stored session. -/
def sampleSession : PtySession := ⟨"s1", 1, 2, 3, 4⟩

/-- A one-session registry. -/
def reg1 : Registry := [("s1", sampleSession)]

/-- Spawn options with no explicit shell and no extra environment. -/
def opts0 : SpawnOptions := ⟨none, 80, 24, none⟩

/-- Spawn effects in which every OS call succeeds. -/
def okEff : SpawnEffects :=
  { freshId := "id-1"
    shellEnv := some "/bin/zsh"
    openpty := fun _ => .ok ⟨10, 11⟩
    spawnCommand := fun _ => .ok ⟨12, some 42⟩
    takeWriter := .ok 13
    tryCloneReader := .ok 14
    readerTask := 15 }

/-- Spawn effects where PTY creation fails. -/
def failOpenEff : SpawnEffects := { okEff with openpty := fun _ => .error "boom" }

/-- Spawn effects where starting the child process fails. -/
def failSpawnEff : SpawnEffects := { okEff with spawnCommand := fun _ => .error "nosh" }

/-- Spawn effects where taking the writer fails. -/
def failWriterEff : SpawnEffects := { okEff with takeWriter := .error "wfail" }

/-- Spawn effects where cloning the reader fails (the stage the source unwraps). -/
def cloneFailEff : SpawnEffects := { okEff with tryCloneReader := .error "cfail" }

/-- Write effects in which every call succeeds. -/
def okWriteEff : WriteEffects := ⟨.ok (), .ok (), .ok ()⟩

/-- Resize effects in which the resize call succeeds. -/
def okResizeEff : ResizeEffects := ⟨fun _ => .ok ()⟩

/-! ## Claim theorems -/

/-- C10: the child's environment always has TERM = "xterm-256color" and
COLORTERM = "truecolor": `spawn` sets both after applying the caller's env
mapping, so caller-provided values for those names are always overwritten. -/
theorem child_env_term_colorterm (shell : String) (envOpt : Option (List (String × String))) :
    cmdGetEnv (buildCmd shell envOpt) "TERM" = some "xterm-256color" ∧
    cmdGetEnv (buildCmd shell envOpt) "COLORTERM" = some "truecolor" := by
  constructor <;>
    simp [buildCmd, cmdGetEnv, CommandBuilder.env, List.reverse_append, cmdGetEnv.go]

/-- C2: one reader-loop iteration — `Ok(0)` emits exactly one exit
notification with exitCode 0 on `pty://{id}/exit` and stops; `Ok(n)` with
n > 0 emits the n bytes lossily decoded as one data notification on
`pty://{id}/data` and continues; `Err` emits exactly one exit notification
with exitCode 1 on `pty://{id}/exit` and stops. -/
theorem reader_step_spec (sessionId : String) :
    readerStep sessionId (ReadResult.ok []) =
      ([PtyEvent.exit ("pty://" ++ sessionId ++ "/exit") 0], false) ∧
    (∀ bs : List Nat, bs ≠ [] →
      readerStep sessionId (ReadResult.ok bs) =
        ([PtyEvent.data ("pty://" ++ sessionId ++ "/data") (utf8Lossy bs)], true)) ∧
    (∀ e : String, readerStep sessionId (ReadResult.err e) =
      ([PtyEvent.exit ("pty://" ++ sessionId ++ "/exit") 1], false)) := by
  refine ⟨rfl, ?_, fun e => rfl⟩
  intro bs h
  cases bs with
  | nil => exact absurd rfl h
  | cons b rest => rfl

/-- C2 witness: the three cases of `reader_step_spec` evaluated at session
id "s1", with the nonempty read `[0x68, 0xFF]` (lossy-decoded to
`[0x68, 0xFFFD]`). -/
theorem reader_step_spec_witness :
    readerStep "s1" (ReadResult.ok []) = ([PtyEvent.exit "pty://s1/exit" 0], false) ∧
    readerStep "s1" (ReadResult.ok [0x68, 0xFF]) =
      ([PtyEvent.data "pty://s1/data" [0x68, 0xFFFD]], true) ∧
    readerStep "s1" (ReadResult.err "eio") = ([PtyEvent.exit "pty://s1/exit" 1], false) := by
  refine ⟨(reader_step_spec "s1").1, ?_, (reader_step_spec "s1").2.2 "eio"⟩
  have h := (reader_step_spec "s1").2.1 [0x68, 0xFF] (by decide)
  rw [h]
  rfl

/-- C3: if `sid` is present, `close` succeeds and removes it; a second
`close` on the same id (no intervening spawn) fails with the not-found
error and changes nothing, so close is success-then-NotFound, never a
no-op. -/
theorem close_once_then_not_found (reg : Registry) (sid : String) (s : PtySession)
    (h : regLookup reg sid = some s) :
    close reg sid = (Outcome.ok (), regRemove reg sid, [s.readerHandle]) ∧
    regLookup (regRemove reg sid) sid = none ∧
    close (regRemove reg sid) sid =
      (Outcome.err ("Session not found: " ++ sid), regRemove reg sid, []) := by
  refine ⟨?_, regLookup_remove_self reg sid, ?_⟩
  · simp [close, h]
  · simp [close, regLookup_remove_self reg sid]

/-- C3 witness: `close_once_then_not_found` at the one-session registry. -/
theorem close_once_then_not_found_witness :
    close reg1 "s1" = (Outcome.ok (), regRemove reg1 "s1", [sampleSession.readerHandle]) ∧
    regLookup (regRemove reg1 "s1") "s1" = none ∧
    close (regRemove reg1 "s1") "s1" =
      (Outcome.err ("Session not found: " ++ "s1"), regRemove reg1 "s1", []) :=
  close_once_then_not_found reg1 "s1" sampleSession rfl

/-- C9: on an absent id, `write`, `resize` and `close` all fail with the
not-found error and return the registry unchanged, so no other session is
affected. -/
theorem absent_id_not_found_frame (reg : Registry) (sid : String)
    (weff : WriteEffects) (reff : ResizeEffects) (data : String) (cols rows : Nat)
    (h : regLookup reg sid = none) :
    write weff reg sid data = (Outcome.err ("Session not found: " ++ sid), reg, []) ∧
    resize reff reg sid cols rows = (Outcome.err ("Session not found: " ++ sid), reg) ∧
    close reg sid = (Outcome.err ("Session not found: " ++ sid), reg, []) := by
  refine ⟨?_, ?_, ?_⟩ <;> simp [write, resize, close, h]

/-- C9 witness: `absent_id_not_found_frame` on `reg1` at the absent id
"ghost", leaving the one live session untouched. -/
theorem absent_id_not_found_frame_witness :
    write okWriteEff reg1 "ghost" "ls" =
      (Outcome.err ("Session not found: " ++ "ghost"), reg1, []) ∧
    resize okResizeEff reg1 "ghost" 120 40 =
      (Outcome.err ("Session not found: " ++ "ghost"), reg1) ∧
    close reg1 "ghost" = (Outcome.err ("Session not found: " ++ "ghost"), reg1, []) :=
  absent_id_not_found_frame reg1 "ghost" okWriteEff okResizeEff "ls" 120 40 rfl

/-- Inversion of a successful `spawn`: every stage succeeded, the returned
info is built from the fresh id, the child's pid and the resolved shell, and
the new registry is the old one with the session inserted. -/
theorem spawn_ok_elim (eff : SpawnEffects) (opts : SpawnOptions) (reg : Registry)
    (info : SessionInfo) (reg2 : Registry)
    (hs : spawn eff opts reg = (Outcome.ok info, reg2)) :
    ∃ pair child writer reader,
      eff.openpty ⟨opts.rows, opts.cols, 0, 0⟩ = Except.ok pair ∧
      eff.spawnCommand (buildCmd (resolveShell opts.shell eff.shellEnv) opts.env) =
        Except.ok child ∧
      eff.takeWriter = Except.ok writer ∧
      eff.tryCloneReader = Except.ok reader ∧
      info = ⟨eff.freshId, child.processId.getD 0, resolveShell opts.shell eff.shellEnv⟩ ∧
      reg2 = regInsert reg eff.freshId
        ⟨eff.freshId, child.token, pair.master, writer, eff.readerTask⟩ := by
  simp only [spawn] at hs
  cases hopen : eff.openpty ⟨opts.rows, opts.cols, 0, 0⟩ with
  | error e => rw [hopen] at hs; simp at hs
  | ok pair =>
    rw [hopen] at hs
    cases hcmd : eff.spawnCommand (buildCmd (resolveShell opts.shell eff.shellEnv) opts.env) with
    | error e => rw [hcmd] at hs; simp at hs
    | ok child =>
      rw [hcmd] at hs
      cases hw : eff.takeWriter with
      | error e => rw [hw] at hs; simp at hs
      | ok writer =>
        rw [hw] at hs
        cases hr : eff.tryCloneReader with
        | error e => rw [hr] at hs; simp at hs
        | ok reader =>
          rw [hr] at hs
          simp only [Prod.mk.injEq, Outcome.ok.injEq] at hs
          exact ⟨pair, child, writer, reader, rfl, rfl, rfl, rfl, hs.1.symm, hs.2.symm⟩

/-- C1: if PTY creation, child-process start, or writer acquisition fails,
`spawn` returns the descriptive error for that stage and the registry is
unchanged — no session is inserted under any identifier. -/
theorem spawn_stage_failure_leaves_registry (eff : SpawnEffects) (opts : SpawnOptions)
    (reg : Registry) :
    (∀ e, eff.openpty ⟨opts.rows, opts.cols, 0, 0⟩ = Except.error e →
      spawn eff opts reg = (Outcome.err ("Failed to open PTY: " ++ e), reg)) ∧
    (∀ pair e, eff.openpty ⟨opts.rows, opts.cols, 0, 0⟩ = Except.ok pair →
      eff.spawnCommand (buildCmd (resolveShell opts.shell eff.shellEnv) opts.env) =
        Except.error e →
      spawn eff opts reg = (Outcome.err ("Failed to spawn shell: " ++ e), reg)) ∧
    (∀ pair child e, eff.openpty ⟨opts.rows, opts.cols, 0, 0⟩ = Except.ok pair →
      eff.spawnCommand (buildCmd (resolveShell opts.shell eff.shellEnv) opts.env) =
        Except.ok child →
      eff.takeWriter = Except.error e →
      spawn eff opts reg = (Outcome.err ("Failed to get writer: " ++ e), reg)) := by
  refine ⟨?_, ?_, ?_⟩
  · intro e h; simp [spawn, h]
  · intro pair e h1 h2; simp [spawn, h1, h2]
  · intro pair child e h1 h2 h3; simp [spawn, h1, h2, h3]

/-- C1 witness: the three failing stages at concrete effects, each leaving
the one-session registry exactly as it was. -/
theorem spawn_stage_failure_witness :
    spawn failOpenEff opts0 reg1 = (Outcome.err ("Failed to open PTY: " ++ "boom"), reg1) ∧
    spawn failSpawnEff opts0 reg1 = (Outcome.err ("Failed to spawn shell: " ++ "nosh"), reg1) ∧
    spawn failWriterEff opts0 reg1 = (Outcome.err ("Failed to get writer: " ++ "wfail"), reg1) :=
  ⟨(spawn_stage_failure_leaves_registry failOpenEff opts0 reg1).1 "boom" rfl,
   (spawn_stage_failure_leaves_registry failSpawnEff opts0 reg1).2.1 ⟨10, 11⟩ "nosh" rfl rfl,
   (spawn_stage_failure_leaves_registry failWriterEff opts0 reg1).2.2 ⟨10, 11⟩ ⟨12, some 42⟩
     "wfail" rfl rfl rfl⟩

/-- C4: `write` on an absent id fails NotFound; on a present id it never
mutates the registry, and — under the writer lock — writes all bytes then
flushes on success, while a failing `write_all` or `flush` surfaces as a
descriptive I/O error with the session still registered. -/
theorem write_spec (eff : WriteEffects) (reg : Registry) (sid data : String) :
    (regLookup reg sid = none →
      write eff reg sid data = (Outcome.err ("Session not found: " ++ sid), reg, [])) ∧
    (∀ s, regLookup reg sid = some s →
      (write eff reg sid data).2.1 = reg ∧
      (eff.lockWriter = Except.ok () → eff.writeAll = Except.ok () →
        eff.flush = Except.ok () →
        write eff reg sid data =
          (Outcome.ok (), reg, [WriterOp.writeAll data, WriterOp.flush])) ∧
      (∀ e, eff.lockWriter = Except.ok () → eff.writeAll = Except.error e →
        write eff reg sid data = (Outcome.err ("Failed to write to PTY: " ++ e), reg, [])) ∧
      (∀ e, eff.lockWriter = Except.ok () → eff.writeAll = Except.ok () →
        eff.flush = Except.error e →
        write eff reg sid data =
          (Outcome.err ("Failed to flush PTY: " ++ e), reg, [WriterOp.writeAll data]))) := by
  constructor
  · intro h; simp [write, h]
  · intro s h
    refine ⟨?_, ?_, ?_, ?_⟩
    · cases hl : eff.lockWriter with
      | error e => simp [write, h, hl]
      | ok u =>
        cases hw : eff.writeAll with
        | error e => simp [write, h, hl, hw]
        | ok u2 =>
          cases hf : eff.flush with
          | error e => simp [write, h, hl, hw, hf]
          | ok u3 => simp [write, h, hl, hw, hf]
    · intro h1 h2 h3; simp [write, h, h1, h2, h3]
    · intro e h1 h2; simp [write, h, h1, h2]
    · intro e h1 h2 h3; simp [write, h, h1, h2, h3]

/-- C4 witness: a successful write to the live session "s1" performs
write-all then flush and leaves the registry as it was. -/
theorem write_spec_witness :
    write okWriteEff reg1 "s1" "ls" =
      (Outcome.ok (), reg1, [WriterOp.writeAll "ls", WriterOp.flush]) ∧
    (write okWriteEff reg1 "s1" "ls").2.1 = reg1 :=
  ⟨((write_spec okWriteEff reg1 "s1" "ls").2 sampleSession rfl).2.1 rfl rfl rfl,
   ((write_spec okWriteEff reg1 "s1" "ls").2 sampleSession rfl).1⟩

/-- C6: a successful `spawn` (with positive dimensions) returns a
`SessionInfo` whose id is the fresh id, absent from every previously issued
id, present in the registry immediately after the call, whose shell is the
resolved shell path, and whose pid is the child's reported process id with
fallback 0. -/
theorem spawn_success_session_info (eff : SpawnEffects) (opts : SpawnOptions)
    (reg : Registry) (info : SessionInfo) (reg2 : Registry) (issued : List String)
    (_hc : 0 < opts.cols) (_hr : 0 < opts.rows)
    (hfresh : eff.freshId ∉ issued)
    (hs : spawn eff opts reg = (Outcome.ok info, reg2)) :
    info.id = eff.freshId ∧
    info.id ∉ issued ∧
    (regLookup reg2 info.id).isSome = true ∧
    info.shell = resolveShell opts.shell eff.shellEnv ∧
    ∃ child, eff.spawnCommand (buildCmd (resolveShell opts.shell eff.shellEnv) opts.env) =
        Except.ok child ∧ info.pid = child.processId.getD 0 := by
  obtain ⟨pair, child, writer, reader, hopen, hcmd, hw, hrd, hinfo, hreg⟩ :=
    spawn_ok_elim eff opts reg info reg2 hs
  subst hinfo
  subst hreg
  refine ⟨rfl, hfresh, ?_, rfl, child, hcmd, rfl⟩
  rw [regLookup_insert_self]
  rfl

/-- C6 witness: `spawn_success_session_info` at all-succeeding effects over
the empty registry, with one previously issued id "old". -/
theorem spawn_success_session_info_witness :
    (SessionInfo.mk "id-1" 42 "/bin/zsh").id = okEff.freshId ∧
    (SessionInfo.mk "id-1" 42 "/bin/zsh").id ∉ ["old"] ∧
    (regLookup [("id-1", PtySession.mk "id-1" 12 10 13 15)]
      (SessionInfo.mk "id-1" 42 "/bin/zsh").id).isSome = true ∧
    (SessionInfo.mk "id-1" 42 "/bin/zsh").shell = resolveShell opts0.shell okEff.shellEnv ∧
    ∃ child, okEff.spawnCommand (buildCmd (resolveShell opts0.shell okEff.shellEnv) opts0.env) =
        Except.ok child ∧ (SessionInfo.mk "id-1" 42 "/bin/zsh").pid = child.processId.getD 0 :=
  spawn_success_session_info okEff opts0 [] (SessionInfo.mk "id-1" 42 "/bin/zsh")
    [("id-1", PtySession.mk "id-1" 12 10 13 15)] ["old"]
    (by decide) (by decide) (by decide) rfl

/-- C7: the shell is resolved as the explicit option if present, else the
SHELL environment variable if set, else "/bin/bash"; a successful spawn's
returned shell field is exactly this resolved path. -/
theorem spawn_shell_resolution (eff : SpawnEffects) (opts : SpawnOptions) (reg : Registry) :
    resolveShell opts.shell eff.shellEnv =
      (match opts.shell, eff.shellEnv with
       | some s, _ => s
       | none, some v => v
       | none, none => "/bin/bash") ∧
    (∀ info reg2, spawn eff opts reg = (Outcome.ok info, reg2) →
      info.shell = resolveShell opts.shell eff.shellEnv) := by
  constructor
  · cases opts.shell <;> cases eff.shellEnv <;> rfl
  · intro info reg2 hs
    obtain ⟨_, _, _, _, _, _, _, _, hinfo, _⟩ := spawn_ok_elim eff opts reg info reg2 hs
    rw [hinfo]

/-- C7 witness: with no explicit shell and SHELL set to "/bin/zsh" the
resolved and returned shell is "/bin/zsh". -/
theorem spawn_shell_resolution_witness :
    resolveShell opts0.shell okEff.shellEnv = "/bin/zsh" ∧
    (SessionInfo.mk "id-1" 42 "/bin/zsh").shell = resolveShell opts0.shell okEff.shellEnv :=
  ⟨(spawn_shell_resolution okEff opts0 []).1,
   (spawn_shell_resolution okEff opts0 []).2 (SessionInfo.mk "id-1" 42 "/bin/zsh")
     [("id-1", PtySession.mk "id-1" 12 10 13 15)] rfl⟩

/-- C5 counterexample: the claim "no operation panics on a session-level
failure" is false — `spawn` unwraps `try_clone_reader`, so when cloning the
reader fails, `spawn` panics instead of returning an error. -/
theorem no_panic_claim_refuted :
    ¬ ∀ (eff : SpawnEffects) (opts : SpawnOptions) (reg : Registry),
        ((spawn eff opts reg).1).isPanic = false := by
  intro h
  have h1 := h cloneFailEff opts0 []
  have h2 : ((spawn cloneFailEff opts0 []).1).isPanic = true := rfl
  rw [h1] at h2
  simp at h2

/-- C5 amended: all failures the operations check are returned as
descriptive errors — `write`, `resize` and `close` never panic, and `spawn`
never panics provided cloning the reader from the master succeeds (the one
result the source unwraps instead of propagating). -/
theorem ops_no_panic_amended (eff : SpawnEffects) (weff : WriteEffects)
    (reff : ResizeEffects) (opts : SpawnOptions) (reg : Registry)
    (sid data : String) (cols rows : Nat)
    (h : ∃ r, eff.tryCloneReader = Except.ok r) :
    ((spawn eff opts reg).1).isPanic = false ∧
    ((write weff reg sid data).1).isPanic = false ∧
    ((resize reff reg sid cols rows).1).isPanic = false ∧
    ((close reg sid).1).isPanic = false := by
  obtain ⟨r, hr⟩ := h
  refine ⟨?_, ?_, ?_, ?_⟩
  · simp only [spawn]
    cases ho : eff.openpty ⟨opts.rows, opts.cols, 0, 0⟩ with
    | error e => simp [Outcome.isPanic]
    | ok pair =>
      cases hc : eff.spawnCommand (buildCmd (resolveShell opts.shell eff.shellEnv) opts.env) with
      | error e => simp [Outcome.isPanic]
      | ok child =>
        cases hw : eff.takeWriter with
        | error e => simp [Outcome.isPanic]
        | ok writer => rw [hr]; simp [Outcome.isPanic]
  · simp only [write]
    cases regLookup reg sid with
    | none => simp [Outcome.isPanic]
    | some s =>
      cases weff.lockWriter with
      | error e => simp [Outcome.isPanic]
      | ok u =>
        cases weff.writeAll with
        | error e => simp [Outcome.isPanic]
        | ok u2 =>
          cases weff.flush with
          | error e => simp [Outcome.isPanic]
          | ok u3 => simp [Outcome.isPanic]
  · simp only [resize]
    cases regLookup reg sid with
    | none => simp [Outcome.isPanic]
    | some s =>
      cases reff.resizeOp ⟨rows, cols, 0, 0⟩ with
      | error e => simp [Outcome.isPanic]
      | ok u => simp [Outcome.isPanic]
  · simp only [close]
    cases regLookup reg sid with
    | none => simp [Outcome.isPanic]
    | some s => simp [Outcome.isPanic]

/-- C5 amended witness: `ops_no_panic_amended` at all-succeeding spawn
effects and the one-session registry. -/
theorem ops_no_panic_amended_witness :
    ((spawn okEff opts0 reg1).1).isPanic = false ∧
    ((write okWriteEff reg1 "s1" "ls").1).isPanic = false ∧
    ((resize okResizeEff reg1 "s1" 120 40).1).isPanic = false ∧
    ((close reg1 "s1").1).isPanic = false :=
  ops_no_panic_amended okEff okWriteEff okResizeEff opts0 reg1 "s1" "ls" 120 40 ⟨14, rfl⟩

/-- C8: a reader loop that terminates via EOF (every earlier read returned
data) emits exactly one exit notification, with exitCode 0 on the session's
exit topic, and every notification before it is a data notification — none
follows it. -/
theorem reader_loop_eof_exit_once (sid : String) (datas rest : List ReadResult)
    (h : ∀ r ∈ datas, ∃ bs, r = ReadResult.ok bs ∧ bs ≠ []) :
    (readerLoop sid (datas ++ ReadResult.ok [] :: rest)).filter isExitEv =
      [PtyEvent.exit ("pty://" ++ sid ++ "/exit") 0] ∧
    ∃ pre, readerLoop sid (datas ++ ReadResult.ok [] :: rest) =
        pre ++ [PtyEvent.exit ("pty://" ++ sid ++ "/exit") 0] ∧
      ∀ e ∈ pre, isDataEv e = true := by
  induction datas with
  | nil =>
    refine ⟨?_, [], ?_, ?_⟩
    · simp [readerLoop, readerStep, isExitEv]
    · simp [readerLoop, readerStep]
    · simp
  | cons r ds ih =>
    obtain ⟨bs, hrq, hne⟩ := h r (by simp)
    have hds : ∀ r2 ∈ ds, ∃ bs2, r2 = ReadResult.ok bs2 ∧ bs2 ≠ [] :=
      fun r2 hm => h r2 (by simp [hm])
    obtain ⟨hfilter, pre, hpre, hdata⟩ := ih hds
    subst hrq
    cases bs with
    | nil => exact absurd rfl hne
    | cons b bs2 =>
      constructor
      · simp [readerLoop, readerStep, isExitEv, hfilter]
      · refine ⟨PtyEvent.data ("pty://" ++ sid ++ "/data") (utf8Lossy (b :: bs2)) :: pre,
          ?_, ?_⟩
        · simp [readerLoop, readerStep, hpre]
        · intro e he
          rcases List.mem_cons.mp he with h1 | h2
          · rw [h1]; rfl
          · exact hdata e h2

/-- C8 witness: `reader_loop_eof_exit_once` on one data read followed by
EOF (a pending errored read after the EOF is never reached). -/
theorem reader_loop_eof_exit_once_witness :
    (readerLoop "s1" ([ReadResult.ok [104]] ++ ReadResult.ok [] :: [ReadResult.err "x"])).filter
        isExitEv = [PtyEvent.exit ("pty://" ++ "s1" ++ "/exit") 0] ∧
    ∃ pre, readerLoop "s1" ([ReadResult.ok [104]] ++ ReadResult.ok [] :: [ReadResult.err "x"]) =
        pre ++ [PtyEvent.exit ("pty://" ++ "s1" ++ "/exit") 0] ∧
      ∀ e ∈ pre, isDataEv e = true :=
  reader_loop_eof_exit_once "s1" [ReadResult.ok [104]] [ReadResult.err "x"]
    (by intro r hm; simp at hm; exact ⟨[104], hm, by decide⟩)

end Xterminal
